import Mathlib

/-!
Verification of the response-extraction and composition logic of the
gridpilot chat server (the `app.post` handler for the chat endpoint).

The handler receives a JSON body with a `message` field, spawns an external
python process, accumulates its stdout into `dataString` and stderr into
`errorString`, and on the process `close` event either reports a generic
failure (non-zero exit code) or composes a reply from `dataString`:

* each stdout line is matched against the JS regex `^\[([\w_]+)\]: (.+)$`;
  matches whose captured text is the literal `None` are discarded;
* if the resulting `agentResponses` list is non-empty, the reply defaults to
  the last response's message, overridden — when a `CAISO_Market` or
  `Weather` response is present — by the blank-line join of all messages
  that are not `None` and longer than 10 UTF-16 units;
* otherwise the reply is the newline join of the raw lines that survive a
  noise filter;
* the empty reply is replaced by the sentinel `No response generated`.

JS string primitives used by the handler (`split`, `trim`, `startsWith`,
`includes`, `.length`, the regex character classes) are modelled below over
`List Char`, with `.length` counted in UTF-16 code units and `trim` using
the ECMAScript whitespace set.
-/

/-- The JS regex class `[\w_]`: ASCII letters, digits and underscore. -/
def isWordChar (c : Char) : Bool :=
  c.isAlphanum || c == '_'

/-- Line terminators, which the JS regex `.` does not match. -/
def lineTerminator (c : Char) : Bool :=
  c == '\n' || c == '\r' || c.toNat == 8232 || c.toNat == 8233

/-- The ECMAScript whitespace set used by `String.prototype.trim`. -/
def jsWhitespaceChar (c : Char) : Bool :=
  let n := c.toNat
  n == 9 || n == 10 || n == 11 || n == 12 || n == 13 || n == 32 ||
  n == 160 || n == 5760 || (8192 ≤ n && n ≤ 8202) || n == 8232 ||
  n == 8233 || n == 8239 || n == 8287 || n == 12288 || n == 65279

/-- JS `s.trim()`: strip leading and trailing whitespace. -/
def jsTrim (s : String) : String :=
  String.mk (((s.data.dropWhile jsWhitespaceChar).reverse.dropWhile jsWhitespaceChar).reverse)

/-- JS `s.length`: the number of UTF-16 code units of `s`. -/
def utf16Length (s : String) : Nat :=
  s.data.foldl (fun n c => n + (if c.toNat ≥ 65536 then 2 else 1)) 0

/-- JS `s.startsWith(p)`. -/
def jsStartsWith (s p : String) : Bool :=
  p.data.isPrefixOf s.data

/-- Does `sub` occur as a contiguous subsequence of the second list? -/
def containsSeq (sub : List Char) : List Char → Bool
  | [] => sub.isEmpty
  | c :: tl => sub.isPrefixOf (c :: tl) || containsSeq sub tl

/-- JS `s.includes(sub)`: substring containment. -/
def jsIncludes (s sub : String) : Bool :=
  containsSeq sub.data s.data

/-- Helper for `splitLines`: accumulates the current segment reversed. -/
def splitLinesAux : List Char → List Char → List String
  | [], acc => [String.mk acc.reverse]
  | c :: cs, acc =>
    if c == '\n' then String.mk acc.reverse :: splitLinesAux cs []
    else splitLinesAux cs (c :: acc)

/-- JS `s.split('\n')`: split on each newline character; `"".split` is `[""]`. -/
def splitLines (s : String) : List String :=
  splitLinesAux s.data []

/-- Final step of the regex match: the identifier run and the text must be
non-empty and the text free of line terminators (`.` matches neither `\n`,
`\r` nor the Unicode line separators). -/
def buildMatch (ident text : List Char) : Option (String × String) :=
  if ident.isEmpty then none
  else if text.isEmpty then none
  else if text.all (fun k => !lineTerminator k) then
    some (String.mk ident, String.mk text)
  else none

/-- `line.match(/^\[([\w_]+)\]: (.+)$/)`: `some (identifier, text)` when the
line is `[` + a non-empty run of word characters + `]: ` + a non-empty
terminator-free text, `none` otherwise. -/
def agentMatch (line : String) : Option (String × String) :=
  match line.data with
  | '[' :: rest =>
    match rest.dropWhile isWordChar with
    | ']' :: ':' :: ' ' :: text => buildMatch (rest.takeWhile isWordChar) text
    | _ => none
  | _ => none

/-- One structured fact extracted from a tagged output line. -/
structure AgentMessage where
  agent : String
  message : String
deriving DecidableEq, Repr

/-- Body of the extraction loop: push the regex match of one line unless its
captured text is the literal `None`. -/
def pushResponse (line : String) : Option AgentMessage :=
  match agentMatch line with
  | some p => if p.2 != "None" then some ⟨p.1, p.2⟩ else none
  | none => none

/-- The extraction loop: for each line of `dataString`, push the regex match
unless its captured text is the literal `None`. -/
def agentResponses (dataString : String) : List AgentMessage :=
  (splitLines dataString).filterMap pushResponse

/-- All regex matches of the lines of `dataString`, before the `None` filter
(the lines "matching the tagged format"). -/
def taggedMatches (dataString : String) : List (String × String) :=
  (splitLines dataString).filterMap agentMatch

/-- `agentResponses.filter(r => r.agent === 'CAISO_Market')`. -/
def marketData (dataString : String) : List AgentMessage :=
  (agentResponses dataString).filter (fun r => r.agent == "CAISO_Market")

/-- `agentResponses.filter(r => r.agent === 'Weather')`. -/
def weatherData (dataString : String) : List AgentMessage :=
  (agentResponses dataString).filter (fun r => r.agent == "Weather")

/-- JS `Array.prototype.join(sep)`. -/
def joinWith (sep : String) : List String → String
  | [] => ""
  | [x] => x
  | x :: y :: xs => x ++ sep ++ joinWith sep (y :: xs)

/-- The data-bearing override: blank-line join of every message that is not
`None` and longer than 10 UTF-16 units, in original order. -/
def dataBearingJoin (dataString : String) : String :=
  joinWith "\n\n"
    (((agentResponses dataString).filter
        (fun r => r.message != "None" && utf16Length r.message > 10)).map
      (fun r => r.message))

/-- The raw-fallback filter: keep lines that do not start with `User:`, do not
contain `UserWarning`, `INFO`, `DEBUG` or `Warning:`, and are non-blank after
trimming. -/
def fallbackKeep (line : String) : Bool :=
  !jsStartsWith line "User:" &&
  !jsIncludes line "UserWarning" &&
  !jsIncludes line "INFO" &&
  !jsIncludes line "DEBUG" &&
  !jsIncludes line "Warning:" &&
  (jsTrim line).length > 0

/-- The lines of `dataString` kept by the raw-fallback filter. -/
def fallbackLines (dataString : String) : List String :=
  (splitLines dataString).filter fallbackKeep

/-- The composition pipeline producing `formattedResponse`: last message,
overridden by the data-bearing join when a `CAISO_Market` or `Weather`
response is present; raw-fallback join when no structured responses exist. -/
def formattedResponse (dataString : String) : String :=
  if (agentResponses dataString).length > 0 then
    if (marketData dataString).length > 0 ∨ (weatherData dataString).length > 0 then
      dataBearingJoin dataString
    else
      (((agentResponses dataString).getLast?).map AgentMessage.message).getD ""
  else
    joinWith "\n" (fallbackLines dataString)

/-- `formattedResponse || 'No response generated'`: the string sent to the
client as the `response` field. -/
def response (dataString : String) : String :=
  if formattedResponse dataString = "" then "No response generated"
  else formattedResponse dataString

/-- Outcome of the `close` handler: a 500 error or a JSON success reply. -/
inductive CloseResult where
  | failure (status : Nat) (error : String)
  | success (response : String)
deriving DecidableEq, Repr

/-- The `pythonProcess.on('close')` callback: `code` is the exit code (`none`
models JS `null`); non-`0` codes short-circuit to a generic 500 failure and
the composition pipeline is never run. -/
def onClose (code : Option Int) (dataString _errorString : String) : CloseResult :=
  if code ≠ some 0 then
    .failure 500 "Failed to process request. Please check server logs."
  else
    .success (response dataString)

/-- A JSON value as produced by `express.json()` for the `message` field. -/
inductive JVal where
  | jnull
  | jbool (b : Bool)
  | jnum (n : Int)
  | jstr (s : String)
deriving DecidableEq, Repr

/-- JS truthiness of `req.body.message` (`none` models an absent field). -/
def jsTruthy : Option JVal → Bool
  | none => false
  | some .jnull => false
  | some (.jbool b) => b
  | some (.jnum n) => n != 0
  | some (.jstr s) => !s.isEmpty

/-- First action of the chat endpoint: reject a falsy `message` with a 400
before any process is spawned, otherwise spawn the python process. -/
inductive ChatAction where
  | clientError (status : Nat) (error : String)
  | spawnProcess
deriving DecidableEq, Repr

/-- The `if (!message)` guard of the chat endpoint. -/
def chatHandler (message : Option JVal) : ChatAction :=
  if !jsTruthy message then .clientError 400 "Message is required"
  else .spawnProcess

/-- The events for which the handler registers a listener on the spawned
`pythonProcess` object itself (its stdout and stderr streams each get a
separate `data` listener). -/
def pythonProcessListeners : List String :=
  ["close"]

/-- Spec-side predicate, following the spec's words for the override trigger:
a designated data-bearing identifier appears in a line matching the tagged
format (before the `None` filter). For comparison with the code's trigger,
which tests the already-filtered `agentResponses`. -/
def specTaggedDataBearing (dataString : String) : Bool :=
  (taggedMatches dataString).any (fun p => p.1 == "CAISO_Market" || p.1 == "Weather")

/-- A successful `buildMatch` has a non-empty captured text (`(.+)` requires
at least one character). -/
theorem buildMatch_text_ne_empty {ident text : List Char} {p : String × String}
    (h : buildMatch ident text = some p) : p.2 ≠ "" := by
  unfold buildMatch at h
  by_cases hi : ident.isEmpty = true
  · rw [if_pos hi] at h
    exact absurd h (by simp)
  · rw [if_neg hi] at h
    by_cases he : text.isEmpty = true
    · rw [if_pos he] at h
      exact absurd h (by simp)
    · rw [if_neg he] at h
      by_cases ha : (text.all fun k => !lineTerminator k) = true
      · rw [if_pos ha] at h
        obtain rfl : (String.mk ident, String.mk text) = p := Option.some_inj.mp h
        intro hcontra
        have hdata : text = [] := congrArg String.data hcontra
        rw [hdata] at he
        exact he rfl
      · rw [if_neg ha] at h
        exact absurd h (by simp)

/-- A successful regex match has a non-empty captured text. -/
theorem agentMatch_text_ne_empty {line : String} {p : String × String}
    (h : agentMatch line = some p) : p.2 ≠ "" := by
  unfold agentMatch at h
  split at h
  · split at h
    · exact buildMatch_text_ne_empty h
    · exact absurd h (by simp)
  · exact absurd h (by simp)

/-- The extraction loop equals: take all tagged matches, drop the `None` ones,
repackage as `AgentMessage`. -/
theorem agentResponses_eq_filter_taggedMatches (ds : String) :
    agentResponses ds =
      ((taggedMatches ds).filter (fun p => p.2 != "None")).map
        (fun p => AgentMessage.mk p.1 p.2) := by
  unfold agentResponses taggedMatches
  induction splitLines ds with
  | nil => rfl
  | cons hd tl ih =>
    simp only [List.filterMap_cons]
    cases hm : agentMatch hd with
    | none => simp only [pushResponse, hm, ih]
    | some p =>
      simp only [pushResponse, hm, List.filter_cons]
      by_cases hp : (p.2 != "None") = true
      · simp only [hp, if_true, List.map_cons, ih]
      · rw [Bool.not_eq_true] at hp
        simp only [hp, Bool.false_eq_true, if_false, ih]

/-- Every extracted message text is non-empty. -/
theorem message_ne_empty_of_mem {ds : String} {r : AgentMessage}
    (hr : r ∈ agentResponses ds) : r.message ≠ "" := by
  unfold agentResponses at hr
  rw [List.mem_filterMap] at hr
  obtain ⟨line, -, hline⟩ := hr
  unfold pushResponse at hline
  cases hm : agentMatch line with
  | none => rw [hm] at hline; exact absurd hline (by simp)
  | some p =>
    rw [hm] at hline
    have hline' : (if (p.2 != "None") = true then some (AgentMessage.mk p.1 p.2) else none) = some r := hline
    by_cases hp : (p.2 != "None") = true
    · rw [if_pos hp] at hline'
      obtain rfl : AgentMessage.mk p.1 p.2 = r := Option.some_inj.mp hline'
      exact agentMatch_text_ne_empty hm
    · rw [if_neg hp] at hline'
      exact absurd hline' (by simp)

/-- When no structured responses were extracted, the reply is the guarded
raw-fallback join. -/
theorem response_of_agentResponses_nil {ds : String} (h : agentResponses ds = []) :
    response ds =
      if joinWith "\n" (fallbackLines ds) = "" then "No response generated"
      else joinWith "\n" (fallbackLines ds) := by
  unfold response formattedResponse
  rw [h]
  simp

/-- When a data-bearing response is present, `formattedResponse` is the
blank-line join of the long non-`None` messages. -/
theorem formattedResponse_of_dataBearing {ds : String}
    (h : (marketData ds).length > 0 ∨ (weatherData ds).length > 0) :
    formattedResponse ds = dataBearingJoin ds := by
  have hne : 0 < (agentResponses ds).length := by
    rcases h with h' | h'
    · rw [marketData] at h'
      exact lt_of_lt_of_le h' (List.length_filter_le _ _)
    · rw [weatherData] at h'
      exact lt_of_lt_of_le h' (List.length_filter_le _ _)
  unfold formattedResponse
  rw [if_pos hne, if_pos h]

/-- C1 (counterexample): `"[Weather]: short"` extracts one `Weather` message,
so the claim's condition holds, yet the reply is the sentinel
`No response generated` and not the (empty) filtered concatenation. -/
theorem dataBearing_override_empty_join_counterexample :
    ((agentResponses "[Weather]: short").any
        (fun r => r.agent == "CAISO_Market" || r.agent == "Weather")) = true ∧
      response "[Weather]: short" ≠ dataBearingJoin "[Weather]: short" :=
  ⟨by decide, by decide⟩

/-- C1 (amended): whenever the extracted sequence contains a `CAISO_Market`
or `Weather` message, the reply is the blank-line join of all messages that
are not `None` and longer than 10 characters — unless that join is empty, in
which case the reply is the sentinel `No response generated`. -/
theorem dataBearing_override_reply (ds : String)
    (h : (marketData ds).length > 0 ∨ (weatherData ds).length > 0) :
    response ds =
      if dataBearingJoin ds = "" then "No response generated"
      else dataBearingJoin ds := by
  have h1 : formattedResponse ds = dataBearingJoin ds :=
    formattedResponse_of_dataBearing h
  unfold response
  rw [h1]

/-- C1 (witness): concrete scenario 1 of the spec, through
`dataBearing_override_reply`. -/
theorem dataBearing_override_reply_witness :
    ((weatherData "[Weather]: Cloud cover 85%\n[CAISO_Market]: Load down 300MW\n[Coordinator]: Deviation confirmed.").length > 0) ∧
      response "[Weather]: Cloud cover 85%\n[CAISO_Market]: Load down 300MW\n[Coordinator]: Deviation confirmed." =
        "Cloud cover 85%\n\nLoad down 300MW\n\nDeviation confirmed." :=
  ⟨by decide,
    (dataBearing_override_reply
        "[Weather]: Cloud cover 85%\n[CAISO_Market]: Load down 300MW\n[Coordinator]: Deviation confirmed."
        (Or.inr (by decide))).trans (by decide)⟩

/-- C2: when the extracted sequence is non-empty and contains no
`CAISO_Market` and no `Weather` message, the reply is the text of the last
extracted message. -/
theorem last_message_reply (ds : String) (h1 : agentResponses ds ≠ [])
    (h2 : ∀ r ∈ agentResponses ds, r.agent ≠ "CAISO_Market" ∧ r.agent ≠ "Weather") :
    response ds = ((agentResponses ds).getLast h1).message := by
  have hm : marketData ds = [] := by
    rw [marketData, List.filter_eq_nil_iff]
    intro r hr
    simp only [beq_iff_eq]
    exact (h2 r hr).1
  have hw : weatherData ds = [] := by
    rw [weatherData, List.filter_eq_nil_iff]
    intro r hr
    simp only [beq_iff_eq]
    exact (h2 r hr).2
  have hlen : 0 < (agentResponses ds).length := List.length_pos.mpr h1
  have hor : ¬((marketData ds).length > 0 ∨ (weatherData ds).length > 0) := by
    rw [hm, hw]
    simp
  have h3 : formattedResponse ds = ((agentResponses ds).getLast h1).message := by
    unfold formattedResponse
    rw [if_pos hlen, if_neg hor, List.getLast?_eq_getLast _ h1]
    rfl
  unfold response
  rw [h3, if_neg (message_ne_empty_of_mem (List.getLast_mem h1))]

/-- C2 (witness): concrete scenario 2 of the spec, through
`last_message_reply`. -/
theorem last_message_reply_witness :
    response "[Coordinator]: Deviation confirmed." = "Deviation confirmed." :=
  (last_message_reply "[Coordinator]: Deviation confirmed." (by decide) (by decide)).trans
    (by decide)

/-- C3: when no line of `RawOutput` matches the tagged format, the reply is
the newline join of the noise-filtered non-blank lines, or the sentinel
`No response generated` when that join is empty. -/
theorem fallback_reply (ds : String) (h : taggedMatches ds = []) :
    response ds =
      if joinWith "\n" (fallbackLines ds) = "" then "No response generated"
      else joinWith "\n" (fallbackLines ds) := by
  apply response_of_agentResponses_nil
  rw [agentResponses_eq_filter_taggedMatches, h]
  rfl

/-- C3 (witness): concrete scenarios 3 and 4 of the spec, through
`fallback_reply`. -/
theorem fallback_reply_witness :
    (taggedMatches "INFO: starting up\nUser: hello\nPlain diagnostic line\n" = [] ∧
        response "INFO: starting up\nUser: hello\nPlain diagnostic line\n" = "Plain diagnostic line") ∧
      (taggedMatches "" = [] ∧ response "" = "No response generated") :=
  ⟨⟨by decide,
      (fallback_reply "INFO: starting up\nUser: hello\nPlain diagnostic line\n" (by decide)).trans
        (by decide)⟩,
    ⟨by decide, (fallback_reply "" (by decide)).trans (by decide)⟩⟩

/-- C4: a non-zero (or null) exit code makes the close handler return the
generic 500 failure; it never returns a success carrying a composed reply. -/
theorem nonzero_exit_failure (code : Option Int) (dataString errorString : String)
    (h : code ≠ some 0) :
    onClose code dataString errorString =
        CloseResult.failure 500 "Failed to process request. Please check server logs." ∧
      ∀ s, onClose code dataString errorString ≠ CloseResult.success s := by
  have h1 : onClose code dataString errorString =
      CloseResult.failure 500 "Failed to process request. Please check server logs." := by
    unfold onClose
    rw [if_pos h]
  refine ⟨h1, fun s hs => ?_⟩
  rw [h1] at hs
  exact CloseResult.noConfusion hs

/-- C4 (witness): exit code 1 yields the generic failure regardless of the
accumulated stdout. -/
theorem nonzero_exit_failure_witness :
    onClose (some 1) "[Weather]: Cloud cover 85%" "" =
        CloseResult.failure 500 "Failed to process request. Please check server logs." ∧
      ∀ s, onClose (some 1) "[Weather]: Cloud cover 85%" "" ≠ CloseResult.success s :=
  nonzero_exit_failure (some 1) "[Weather]: Cloud cover 85%" "" (by decide)

/-- C5 (counterexample): in
`"[Alpha]: this is a long message\n[Beta]: hi\n[Weather]: None"` the `Weather`
identifier appears in a line matching the tagged format, yet the reply is the
last message `"hi"`, not the override join — the `None` occurrence was
excluded from the sequence before the override test, so the override does not
take effect. -/
theorem none_line_does_not_trigger_override :
    specTaggedDataBearing "[Alpha]: this is a long message\n[Beta]: hi\n[Weather]: None" = true ∧
      response "[Alpha]: this is a long message\n[Beta]: hi\n[Weather]: None" ≠
        dataBearingJoin "[Alpha]: this is a long message\n[Beta]: hi\n[Weather]: None" :=
  ⟨by decide, by decide⟩

/-- C5 (amended): the override takes effect if either designated identifier
appears in the extracted sequence — that is, in a tagged line whose text is
not `None`; an occurrence whose text is filtered out only by the length check
still triggers it, and when the resulting join of qualifying texts is empty
the reply is the final-guard sentinel `No response generated`. -/
theorem override_empty_join_sentinel (ds : String)
    (h1 : ∃ r ∈ agentResponses ds, r.agent = "CAISO_Market" ∨ r.agent = "Weather")
    (h2 : dataBearingJoin ds = "") :
    response ds = "No response generated" := by
  have hor : (marketData ds).length > 0 ∨ (weatherData ds).length > 0 := by
    obtain ⟨r, hr, hc⟩ := h1
    rcases hc with hc | hc
    · left
      rw [marketData]
      exact List.length_pos.mpr
        (List.ne_nil_of_mem (List.mem_filter.mpr ⟨hr, by simp [hc]⟩))
    · right
      rw [weatherData]
      exact List.length_pos.mpr
        (List.ne_nil_of_mem (List.mem_filter.mpr ⟨hr, by simp [hc]⟩))
  have h3 : formattedResponse ds = dataBearingJoin ds :=
    formattedResponse_of_dataBearing hor
  unfold response
  rw [h3, if_pos h2]

/-- C5 (witness): a lone `Weather` message of 10 or fewer characters triggers
the override, whose join is empty, so the sentinel is returned. -/
theorem override_empty_join_sentinel_witness :
    (∃ r ∈ agentResponses "[Weather]: short", r.agent = "CAISO_Market" ∨ r.agent = "Weather") ∧
      response "[Weather]: short" = "No response generated" :=
  ⟨by decide, override_empty_join_sentinel "[Weather]: short" (by decide) (by decide)⟩

/-- C6: when the only line matching the tagged format has captured text
`None`, the extracted sequence is empty and the reply comes from the raw-line
fallback (with its final guard), not from the last-message or override
rules. -/
theorem only_none_line_falls_back (ds a : String)
    (h : taggedMatches ds = [(a, "None")]) :
    agentResponses ds = [] ∧
      response ds =
        if joinWith "\n" (fallbackLines ds) = "" then "No response generated"
        else joinWith "\n" (fallbackLines ds) := by
  have h0 : agentResponses ds = [] := by
    rw [agentResponses_eq_filter_taggedMatches, h]
    rfl
  exact ⟨h0, response_of_agentResponses_nil h0⟩

/-- C6 (witness): a `[Weather]: None` line plus one untagged line — the
sequence is empty and the reply is the raw-fallback join, which keeps both
lines (the `None` line survives the noise filter as plain text). -/
theorem only_none_line_falls_back_witness :
    agentResponses "[Weather]: None\nactual output line here" = [] ∧
      response "[Weather]: None\nactual output line here" =
        "[Weather]: None\nactual output line here" :=
  ⟨(only_none_line_falls_back "[Weather]: None\nactual output line here" "Weather" (by decide)).1,
    ((only_none_line_falls_back "[Weather]: None\nactual output line here" "Weather" (by decide)).2).trans
      (by decide)⟩

/-- C7: the handler registers no `error` listener on the spawned python
process (only `close`, plus `data` on the stdout and stderr streams), so a
failed spawn raises Node's unhandled `error` event instead of producing the
generic ProcessFailure response. -/
theorem spawn_error_listener_absent :
    pythonProcessListeners.contains "error" = false := by decide

/-- C8: composition is a pure function of `RawOutput` — equal inputs yield
equal composed replies. -/
theorem composition_deterministic (d1 d2 : String) (h : d1 = d2) :
    response d1 = response d2 := by
  rw [h]

/-- C8 (witness): `composition_deterministic` at scenario 2's input. -/
theorem composition_deterministic_witness :
    response "[Coordinator]: Deviation confirmed." =
      response "[Coordinator]: Deviation confirmed." :=
  composition_deterministic "[Coordinator]: Deviation confirmed."
    "[Coordinator]: Deviation confirmed." rfl

/-- C9: any falsy `message` (absent, null, false, 0, or the empty string) is
rejected with the 400 `Message is required` error and the python process is
never spawned. -/
theorem falsy_message_rejected (message : Option JVal) (h : jsTruthy message = false) :
    chatHandler message = ChatAction.clientError 400 "Message is required" ∧
      chatHandler message ≠ ChatAction.spawnProcess := by
  have h1 : chatHandler message = ChatAction.clientError 400 "Message is required" := by
    unfold chatHandler
    rw [h]
    rfl
  refine ⟨h1, fun hc => ?_⟩
  rw [h1] at hc
  exact ChatAction.noConfusion hc

/-- C9 (witness): the empty string is falsy, so it is rejected. -/
theorem falsy_message_rejected_witness :
    chatHandler (some (JVal.jstr "")) = ChatAction.clientError 400 "Message is required" ∧
      chatHandler (some (JVal.jstr "")) ≠ ChatAction.spawnProcess :=
  falsy_message_rejected (some (JVal.jstr "")) (by decide)

/-- C10: in the raw-line fallback, the kept lines are a sublist of the
original lines — each kept verbatim, with its original whitespace — trimming
is used only to test blankness, and the reply is their guarded newline
join. -/
theorem fallback_preserves_lines (ds : String) (h : taggedMatches ds = []) :
    List.Sublist (fallbackLines ds) (splitLines ds) ∧
      (∀ l ∈ fallbackLines ds, jsTrim l ≠ "") ∧
      response ds =
        if joinWith "\n" (fallbackLines ds) = "" then "No response generated"
        else joinWith "\n" (fallbackLines ds) := by
  refine ⟨List.filter_sublist _, fun l hl => ?_, ?_⟩
  · rw [fallbackLines, List.mem_filter] at hl
    have hk := hl.2
    unfold fallbackKeep at hk
    simp only [Bool.and_eq_true] at hk
    have hlen : 0 < (jsTrim l).length := of_decide_eq_true hk.2
    intro he
    rw [he] at hlen
    exact absurd hlen (by decide)
  · apply response_of_agentResponses_nil
    rw [agentResponses_eq_filter_taggedMatches, h]
    rfl

/-- C10 (witness): a padded line survives the fallback with its surrounding
whitespace intact. -/
theorem fallback_preserves_lines_witness :
    taggedMatches "  padded line  \nUser: hello" = [] ∧
      response "  padded line  \nUser: hello" = "  padded line  " :=
  ⟨by decide,
    ((fallback_preserves_lines "  padded line  \nUser: hello" (by decide)).2.2).trans
      (by decide)⟩
